import Mathlib

/-!
Shallow embedding of the Music-Database repository (src/music_db.py and
src/music_dbs.py) and proofs about its specification.

The relational state is a `DB` record holding the seven tables as lists of
rows together with the auto-increment counters that back `cursor.lastrowid`.
Each loader of `music_db.py` is embedded under namespace `MusicDb`, each
loader of `music_dbs.py` under namespace `MusicDbs`.  The read-only queries
are textually identical SQL in the two files and are embedded once at top
level.  `CURDATE()` / `NOW()` are modelled as an opaque timestamp string
supplied by the caller.  Python `str.strip()` is modelled by `pyStrip`, and
the SQL `YEAR()` of a `yyyy-mm-dd` string by `yearOf`; the default string
collation of `ORDER BY name ASC` is modelled as code-point lexicographic
order `strLe`.
-/

/-- Whitespace characters removed by Python `str.strip()`. -/
def isSpaceChar (c : Char) : Bool :=
  c == ' ' || c == '\t' || c == '\n' || c == '\r' || c.toNat == 11 || c.toNat == 12

/-- Remove leading and trailing whitespace from a character list. -/
def stripChars (l : List Char) : List Char :=
  ((l.dropWhile isSpaceChar).reverse.dropWhile isSpaceChar).reverse

/-- Model of Python `str.strip()`. -/
def pyStrip (s : String) : String := String.mk (stripChars s.data)

/-- Lexicographic comparison of character lists by code point. -/
def strLeB : List Char → List Char → Bool
  | [], _ => true
  | _ :: _, [] => false
  | a :: as, b :: bs =>
    if a.toNat < b.toNat then true
    else if b.toNat < a.toNat then false
    else strLeB as bs

/-- Model of the string order used by SQL `ORDER BY ... ASC` on names. -/
def strLe (a b : String) : Bool := strLeB a.data b.data

/-- Model of SQL `YEAR()` applied to a `yyyy-mm-dd` date string. -/
def yearOf (d : String) : Nat :=
  (d.data.take 4).foldl
    (fun a c => a * 10 + (if 48 ≤ c.toNat ∧ c.toNat ≤ 57 then c.toNat - 48 else 0)) 0

/-- Row of the `Artist` table. -/
structure ArtistRow where
  artist_id : Nat
  name : String
  is_group : Bool
deriving Repr, DecidableEq

/-- Row of the `Genre` table. -/
structure GenreRow where
  genre_id : Nat
  name : String
deriving Repr, DecidableEq

/-- Row of the `Album` table (`genre_id` is nullable: `music_db.py` inserts NULL). -/
structure AlbumRow where
  album_id : Nat
  title : String
  artist_id : Nat
  release_date : String
  genre_id : Option Nat
deriving Repr, DecidableEq

/-- Row of the `Song` table (`album_id` null means the song is a single). -/
structure SongRow where
  song_id : Nat
  title : String
  artist_id : Nat
  album_id : Option Nat
  single_release_date : Option String
deriving Repr, DecidableEq

/-- Row of the `Song_genre` join table. -/
structure SongGenreRow where
  song_id : Nat
  genre_id : Nat
deriving Repr, DecidableEq

/-- Row of the `User` table. -/
structure UserRow where
  username : String
  created_at : String
deriving Repr, DecidableEq

/-- Row of the `Rating` table. -/
structure RatingRow where
  username : String
  song_id : Nat
  rating_date : String
  rating : Int
deriving Repr, DecidableEq

/-- The database state: the seven tables plus the auto-increment counters
backing `cursor.lastrowid`. -/
structure DB where
  artists : List ArtistRow
  genres : List GenreRow
  albums : List AlbumRow
  songs : List SongRow
  songGenres : List SongGenreRow
  users : List UserRow
  ratings : List RatingRow
  nextArtistId : Nat
  nextGenreId : Nat
  nextAlbumId : Nat
  nextSongId : Nat
deriving Repr, DecidableEq

/-- `SELECT ... FROM Artist WHERE name = %s` with `fetchone`. -/
def findArtist (l : List ArtistRow) (name : String) : Option ArtistRow :=
  l.find? (fun a => a.name == name)

/-- `SELECT ... FROM Genre WHERE name = %s` with `fetchone`. -/
def findGenre (l : List GenreRow) (name : String) : Option GenreRow :=
  l.find? (fun g => g.name == name)

/-- `SELECT album_id FROM Album WHERE title = %s AND artist_id = %s` with `fetchone`. -/
def findAlbum (l : List AlbumRow) (title : String) (aid : Nat) : Option AlbumRow :=
  l.find? (fun al => al.title == title && al.artist_id == aid)

/-- `SELECT song_id FROM Song WHERE artist_id = %s AND title = %s` with `fetchone`. -/
def findSong (l : List SongRow) (aid : Nat) (title : String) : Option SongRow :=
  l.find? (fun s => s.artist_id == aid && s.title == title)

/-- `SELECT username FROM User WHERE username = %s` with `fetchone`. -/
def findUser (l : List UserRow) (u : String) : Option UserRow :=
  l.find? (fun w => w.username == u)

/-- `SELECT artist_id FROM Artist WHERE artist_id = ...` (join by id). -/
def findArtistById (l : List ArtistRow) (aid : Nat) : Option ArtistRow :=
  l.find? (fun a => a.artist_id == aid)

/-- `INSERT INTO Artist (name, is_group) VALUES (%s, 0)`; returns `lastrowid`. -/
def DB.insertArtist (db : DB) (name : String) : Nat × DB :=
  (db.nextArtistId,
   { db with artists := db.artists ++ [⟨db.nextArtistId, name, false⟩],
             nextArtistId := db.nextArtistId + 1 })

/-- Look up an artist by name, inserting it when absent (the shared
resolve-or-create pattern of every loader). -/
def DB.resolveArtist (db : DB) (name : String) : Nat × DB :=
  match findArtist db.artists name with
  | some a => (a.artist_id, db)
  | none => db.insertArtist name

/-- `INSERT INTO Genre (name) VALUES (%s)`; returns `lastrowid`. -/
def DB.insertGenre (db : DB) (name : String) : Nat × DB :=
  (db.nextGenreId,
   { db with genres := db.genres ++ [⟨db.nextGenreId, name⟩],
             nextGenreId := db.nextGenreId + 1 })

/-- Look up a genre by name, inserting it when absent. -/
def DB.resolveGenre (db : DB) (name : String) : Nat × DB :=
  match findGenre db.genres name with
  | some g => (g.genre_id, db)
  | none => db.insertGenre name

/-- `INSERT INTO Song (artist_id, title, album_id, single_release_date) VALUES ...`. -/
def DB.insertSong (db : DB) (title : String) (aid : Nat) (albumId : Option Nat)
    (srd : Option String) : Nat × DB :=
  (db.nextSongId,
   { db with songs := db.songs ++ [⟨db.nextSongId, title, aid, albumId, srd⟩],
             nextSongId := db.nextSongId + 1 })

/-- `INSERT INTO Album (artist_id, title, release_date, genre_id) VALUES ...`. -/
def DB.insertAlbum (db : DB) (title : String) (aid : Nat) (date : String)
    (gid : Option Nat) : Nat × DB :=
  (db.nextAlbumId,
   { db with albums := db.albums ++ [⟨db.nextAlbumId, title, aid, date, gid⟩],
             nextAlbumId := db.nextAlbumId + 1 })

/-- `INSERT INTO Song_genre (song_id, genre_id) VALUES ...`. -/
def DB.insertSongGenre (db : DB) (sid gid : Nat) : DB :=
  { db with songGenres := db.songGenres ++ [⟨sid, gid⟩] }

/-- `INSERT INTO User (username, created_at) VALUES (%s, CURDATE()/NOW())`. -/
def DB.insertUser (db : DB) (u ts : String) : DB :=
  { db with users := db.users ++ [⟨u, ts⟩] }

/-- `INSERT INTO Rating (username, song_id, rating_date, rating) VALUES ...`. -/
def DB.insertRating (db : DB) (u : String) (sid : Nat) (d : String) (v : Int) : DB :=
  { db with ratings := db.ratings ++ [⟨u, sid, d, v⟩] }

/-- Python `set.add` on the accumulated rejection set, kept in first-insertion
order. -/
def addReject [DecidableEq α] (l : List α) (x : α) : List α :=
  if x ∈ l then l else l ++ [x]

/-- Python `list(dict.fromkeys(l))`: de-duplicate keeping first occurrences. -/
def dedupFirst [DecidableEq α] (l : List α) : List α :=
  l.foldl (fun acc x => if x ∈ acc then acc else acc ++ [x]) []

/-- One record of a `load_single_songs` batch:
`(song title, genre names, artist name, release date)`. -/
structure SingleRec where
  title : String
  genres : List String
  artist : String
  date : String
deriving Repr, DecidableEq

/-- One record of `music_db.load_albums`:
`(album title, artist name, release date, song titles)`. -/
structure AlbumRecL where
  title : String
  artist : String
  date : String
  songs : List String
deriving Repr, DecidableEq

/-- One record of `music_dbs.load_albums`:
`(album title, genre, artist name, release date, song titles)`. -/
structure AlbumRecS where
  title : String
  genre : String
  artist : String
  date : String
  songs : List String
deriving Repr, DecidableEq

/-- One record of a `load_song_ratings` batch:
`(rater, (artist, song), rating, date)`. -/
structure RatingRec where
  user : String
  artist : String
  song : String
  rating : Int
  date : String
deriving Repr, DecidableEq

/-- The join `SELECT s.song_id FROM Song s JOIN Artist a ON s.artist_id =
a.artist_id WHERE a.name = %s AND s.title = %s` with `fetchone`. -/
def findSongByArtistName (db : DB) (artist title : String) : Option Nat :=
  (db.songs.find? (fun s =>
    s.title == title && db.artists.any (fun a =>
      a.artist_id == s.artist_id && a.name == artist))).map (fun s => s.song_id)

/-- Ranking order of the top-N queries: count descending, ties broken by
ascending name (`ORDER BY cnt DESC, name ASC`). -/
def keyOrd (name : α → String) (cnt : α → Nat) (a b : α) : Prop :=
  cnt b < cnt a ∨ (cnt a = cnt b ∧ strLe (name a) (name b) = true)

instance keyOrdDec (name : α → String) (cnt : α → Nat) : DecidableRel (keyOrd name cnt) :=
  fun a b =>
    inferInstanceAs (Decidable (cnt b < cnt a ∨ (cnt a = cnt b ∧ strLe (name a) (name b) = true)))

theorem strLeB_total (a b : List Char) : strLeB a b = true ∨ strLeB b a = true := by
  induction a generalizing b with
  | nil => exact Or.inl rfl
  | cons x xs ih =>
    cases b with
    | nil => exact Or.inr rfl
    | cons y ys =>
      rcases Nat.lt_trichotomy x.toNat y.toNat with h | h | h
      · left; simp [strLeB, h]
      · rcases ih ys with h2 | h2
        · left; simp [strLeB, h, h2]
        · right; simp [strLeB, h.symm, h2]
      · right; simp [strLeB, h]

theorem strLeB_trans (a b c : List Char) (h1 : strLeB a b = true) (h2 : strLeB b c = true) :
    strLeB a c = true := by
  induction a generalizing b c with
  | nil => rfl
  | cons x xs ih =>
    cases b with
    | nil => simp [strLeB] at h1
    | cons y ys =>
      cases c with
      | nil => simp [strLeB] at h2
      | cons z zs =>
        simp only [strLeB] at h1 h2 ⊢
        rcases Nat.lt_trichotomy x.toNat z.toNat with hxz | hxz | hxz
        · simp [hxz]
        · simp only [hxz, Nat.lt_irrefl, if_false]
          rcases Nat.lt_trichotomy x.toNat y.toNat with hxy | hxy | hxy
          · rcases Nat.lt_trichotomy y.toNat z.toNat with hyz | hyz | hyz
            · omega
            · omega
            · simp [Nat.not_lt.mpr (Nat.le_of_lt hyz), hyz] at h2
          · rcases Nat.lt_trichotomy y.toNat z.toNat with hyz | hyz | hyz
            · omega
            · simp only [hxy, Nat.lt_irrefl, if_false] at h1
              simp only [hyz, Nat.lt_irrefl, if_false] at h2
              exact ih ys zs h1 h2
            · omega
          · simp [Nat.not_lt.mpr (Nat.le_of_lt hxy), hxy] at h1
        · rcases Nat.lt_trichotomy x.toNat y.toNat with hxy | hxy | hxy
          · rcases Nat.lt_trichotomy y.toNat z.toNat with hyz | hyz | hyz
            · omega
            · omega
            · simp [Nat.not_lt.mpr (Nat.le_of_lt hyz), hyz] at h2
          · rcases Nat.lt_trichotomy y.toNat z.toNat with hyz | hyz | hyz
            · omega
            · omega
            · simp [Nat.not_lt.mpr (Nat.le_of_lt hyz), hyz] at h2
          · simp [Nat.not_lt.mpr (Nat.le_of_lt hxy), hxy] at h1

instance keyOrdTotal (name : α → String) (cnt : α → Nat) : IsTotal α (keyOrd name cnt) := by
  constructor
  intro a b
  rcases Nat.lt_trichotomy (cnt a) (cnt b) with h | h | h
  · exact Or.inr (Or.inl h)
  · rcases strLeB_total (name a).data (name b).data with h2 | h2
    · exact Or.inl (Or.inr ⟨h, h2⟩)
    · exact Or.inr (Or.inr ⟨h.symm, h2⟩)
  · exact Or.inl (Or.inl h)

instance keyOrdTrans (name : α → String) (cnt : α → Nat) : IsTrans α (keyOrd name cnt) := by
  constructor
  intro a b c h1 h2
  rcases h1 with h1 | ⟨h1, h1s⟩
  · rcases h2 with h2 | ⟨h2, _⟩
    · exact Or.inl (Nat.lt_trans h2 h1)
    · exact Or.inl (h2 ▸ h1)
  · rcases h2 with h2 | ⟨h2, h2s⟩
    · exact Or.inl (h1 ▸ h2)
    · exact Or.inr ⟨h1.trans h2, strLeB_trans _ _ _ h1s h2s⟩

/-- The `ORDER BY cnt DESC, name ASC ... LIMIT n` stage shared by the four
top-N queries. -/
def topN (name : α → String) (cnt : α → Nat) (n : Nat) (l : List α) : List α :=
  (List.insertionSort (keyOrd name cnt) l).take n

/-- Grouping stage of `get_most_prolific_individual_artists`: inner join of
`Artist` and `Song` filtered to non-group artists and singles released in the
year range, grouped by `artist_id` with `COUNT(song_id)`. -/
def prolificGroups (db : DB) (y1 y2 : Nat) : List (String × Nat) :=
  db.artists.filterMap (fun a =>
    if a.is_group then none
    else
      let c := (db.songs.filter (fun s =>
        s.artist_id == a.artist_id && s.album_id.isNone &&
          (match s.single_release_date with
           | none => false
           | some d => decide (y1 ≤ yearOf d) && decide (yearOf d ≤ y2)))).length
      if c = 0 then none else some (a.name, c))

/-- `get_most_prolific_individual_artists` (identical SQL in both files). -/
def get_most_prolific_individual_artists (db : DB) (n : Nat) (yr : Nat × Nat) :
    List (String × Nat) :=
  topN Prod.fst Prod.snd n (prolificGroups db yr.1 yr.2)

/-- Grouping stage of `get_top_song_genres`: inner join of `Genre` and
`Song_genre` grouped by `genre_id` with `COUNT(song_id)`. -/
def genreGroups (db : DB) : List (String × Nat) :=
  db.genres.filterMap (fun g =>
    let c := (db.songGenres.filter (fun sg => sg.genre_id == g.genre_id)).length
    if c = 0 then none else some (g.name, c))

/-- `get_top_song_genres` (identical SQL in both files). -/
def get_top_song_genres (db : DB) (n : Nat) : List (String × Nat) :=
  topN Prod.fst Prod.snd n (genreGroups db)

/-- Grouping stage of `get_most_rated_songs`: `Rating` joined to `Song` and
`Artist`, ratings filtered to the year range, grouped by `song_id`. -/
def ratedSongGroups (db : DB) (y1 y2 : Nat) : List (String × String × Nat) :=
  db.songs.filterMap (fun s =>
    match findArtistById db.artists s.artist_id with
    | none => none
    | some a =>
      let c := (db.ratings.filter (fun r =>
        r.song_id == s.song_id &&
          (decide (y1 ≤ yearOf r.rating_date) && decide (yearOf r.rating_date ≤ y2)))).length
      if c = 0 then none else some (s.title, a.name, c))

/-- `get_most_rated_songs` (identical SQL in both files); ties broken by song
title. -/
def get_most_rated_songs (db : DB) (yr : Nat × Nat) (n : Nat) :
    List (String × String × Nat) :=
  topN (fun x => x.1) (fun x => x.2.2) n (ratedSongGroups db yr.1 yr.2)

/-- Grouping stage of `get_most_engaged_users`: `User` joined to `Rating`,
filtered to the year range, grouped by username. -/
def engagedUserGroups (db : DB) (y1 y2 : Nat) : List (String × Nat) :=
  db.users.filterMap (fun u =>
    let c := (db.ratings.filter (fun r =>
      r.username == u.username &&
        (decide (y1 ≤ yearOf r.rating_date) && decide (yearOf r.rating_date ≤ y2)))).length
    if c = 0 then none else some (u.username, c))

/-- `get_most_engaged_users` (identical SQL in both files). -/
def get_most_engaged_users (db : DB) (yr : Nat × Nat) (n : Nat) : List (String × Nat) :=
  topN Prod.fst Prod.snd n (engagedUserGroups db yr.1 yr.2)

/-- Shared batch shape of every loader: iterate over the records, thread the
database state, and collect rejected keys into a Python-set-like list. -/
def runLoader [DecidableEq κ] (step : DB → ρ → DB × Option κ) (db : DB) (recs : List ρ) :
    DB × List κ :=
  recs.foldl (fun st r =>
    match step st.1 r with
    | (db1, some k) => (db1, addReject st.2 k)
    | (db1, none) => (db1, st.2)) (db, [])

namespace MusicDb

/-- `music_db.clear_database`: delete every row of the seven tables, child
table first (Rating, Song_genre, Song, Album, User, Genre, Artist). -/
def clear_database (db : DB) : DB :=
  let db := { db with ratings := [] }
  let db := { db with songGenres := [] }
  let db := { db with songs := [] }
  let db := { db with albums := [] }
  let db := { db with users := [] }
  let db := { db with genres := [] }
  { db with artists := [] }

/-- Genre loop of `music_db.load_single_songs`: resolve-or-create each genre
and link it to the song. -/
def linkGenres (db : DB) (sid : Nat) (gs : List String) : DB :=
  gs.foldl (fun db g =>
    let (gid, db1) := db.resolveGenre g
    db1.insertSongGenre sid gid) db

/-- Body of the `music_db.load_single_songs` loop for one record. -/
def loadSingle1 (db : DB) (r : SingleRec) : DB × Option (String × String) :=
  let (aid, db1) := db.resolveArtist r.artist
  if (findSong db1.songs aid r.title).isSome then (db1, some (r.title, r.artist))
  else
    let (sid, db2) := db1.insertSong r.title aid none (some r.date)
    (linkGenres db2 sid r.genres, none)

/-- `music_db.load_single_songs`. -/
def load_single_songs (db : DB) (recs : List SingleRec) : DB × List (String × String) :=
  runLoader loadSingle1 db recs

/-- Song loop of `music_db.load_albums`: skip a title that already exists for
the artist, otherwise insert it under the album. -/
def insertAlbumSongs (db : DB) (aid albumId : Nat) (songs : List String) : DB :=
  songs.foldl (fun db t =>
    if (findSong db.songs aid t).isSome then db
    else (db.insertSong t aid (some albumId) none).2) db

/-- Body of the `music_db.load_albums` loop for one record. -/
def loadAlbum1 (db : DB) (r : AlbumRecL) : DB × Option (String × String) :=
  let (aid, db1) := db.resolveArtist r.artist
  if (findAlbum db1.albums r.title aid).isSome then (db1, some (r.title, r.artist))
  else
    let (albId, db2) := db1.insertAlbum r.title aid r.date none
    (insertAlbumSongs db2 aid albId r.songs, none)

/-- `music_db.load_albums`. -/
def load_albums (db : DB) (recs : List AlbumRecL) : DB × List (String × String) :=
  runLoader loadAlbum1 db recs

/-- Body of the `music_db.load_users` loop for one username: the bare
`INSERT ... except` rejects exactly when the username already exists (the
duplicate-key failure), absent storage faults. -/
def loadUser1 (now : String) (db : DB) (u : String) : DB × Option String :=
  if (findUser db.users u).isSome then (db, some u)
  else (db.insertUser u now, none)

/-- `music_db.load_users` (`CURDATE()` modelled as the `now` argument). -/
def load_users (db : DB) (users : List String) (now : String) : DB × List String :=
  runLoader (loadUser1 now) db users

/-- Fault-injected `music_db.load_users`: each username is paired with a flag
saying whether the storage layer raises a connectivity fault at that record's
`INSERT`.  The bare `except` of the source converts the fault into a
rejection and continues with the next record. -/
def loadUserFI1 (now : String) (db : DB) (uf : String × Bool) : DB × Option String :=
  if (findUser db.users uf.1).isSome || uf.2 then (db, some uf.1)
  else (db.insertUser uf.1 now, none)

/-- `music_db.load_users` under fault injection. -/
def load_users_fi (db : DB) (users : List (String × Bool)) (now : String) :
    DB × List String :=
  runLoader (loadUserFI1 now) db users

/-- Body of the `music_db.load_song_ratings` loop for one record: range check,
user check, song check, then duplicate check scoped to the same
`rating_date`. -/
def loadRating1 (db : DB) (r : RatingRec) : DB × Option (String × String × String) :=
  let key := (r.user, r.artist, r.song)
  if r.rating < 1 || 5 < r.rating then (db, some key)
  else if (findUser db.users r.user).isSome = false then (db, some key)
  else
    match findSongByArtistName db r.artist r.song with
    | none => (db, some key)
    | some sid =>
      if db.ratings.any (fun q =>
          q.username == r.user && q.song_id == sid && q.rating_date == r.date) then
        (db, some key)
      else (db.insertRating r.user sid r.date r.rating, none)

/-- `music_db.load_song_ratings`. -/
def load_song_ratings (db : DB) (recs : List RatingRec) :
    DB × List (String × String × String) :=
  runLoader loadRating1 db recs

end MusicDb

namespace MusicDbs

/-- `music_dbs.clear_database`: same deletes in the same child-first order;
the debugging `SELECT COUNT(*)` and the `FOREIGN_KEY_CHECKS` toggles do not
change the stored state. -/
def clear_database (db : DB) : DB :=
  let db := { db with ratings := [] }
  let db := { db with songGenres := [] }
  let db := { db with songs := [] }
  let db := { db with albums := [] }
  let db := { db with users := [] }
  let db := { db with genres := [] }
  { db with artists := [] }

/-- Genre loop of `music_dbs.load_single_songs`: each genre name is stripped
before the resolve-or-create and the link. -/
def linkGenres (db : DB) (sid : Nat) (gs : List String) : DB :=
  gs.foldl (fun db g =>
    let (gid, db1) := db.resolveGenre (pyStrip g)
    db1.insertSongGenre sid gid) db

/-- Body of the `music_dbs.load_single_songs` loop for one record: strip the
title and artist, reject when the genre set is empty, then proceed as in the
looser variant on the stripped values. -/
def loadSingle1 (db : DB) (r : SingleRec) : DB × Option (String × String) :=
  let t := pyStrip r.title
  let a := pyStrip r.artist
  if r.genres.isEmpty then (db, some (t, a))
  else
    let (aid, db1) := db.resolveArtist a
    if (findSong db1.songs aid t).isSome then (db1, some (t, a))
    else
      let (sid, db2) := db1.insertSong t aid none (some r.date)
      (linkGenres db2 sid r.genres, none)

/-- `music_dbs.load_single_songs`. -/
def load_single_songs (db : DB) (recs : List SingleRec) : DB × List (String × String) :=
  runLoader loadSingle1 db recs

/-- Song loop of `music_dbs.load_albums`: every title is inserted under the
album and linked to the album genre (the pre-check guarantees freshness). -/
def insertAlbumSongs (db : DB) (aid albumId gid : Nat) (songs : List String) : DB :=
  songs.foldl (fun db t =>
    let (sid, db1) := db.insertSong t aid (some albumId) none
    db1.insertSongGenre sid gid) db

/-- Body of the `music_dbs.load_albums` loop for one record: strip the string
fields, reject an empty song list, de-duplicate the stripped titles, resolve
the artist, reject a duplicate album title, resolve the genre, reject the
whole album when any listed title already exists for the artist, otherwise
insert the album and all its songs. -/
def loadAlbum1 (db : DB) (r : AlbumRecS) : DB × Option (String × String) :=
  let t := pyStrip r.title
  let g := pyStrip r.genre
  let a := pyStrip r.artist
  if r.songs.isEmpty then (db, some (t, a))
  else
    let ss := dedupFirst (r.songs.map pyStrip)
    let (aid, db1) := db.resolveArtist a
    if (findAlbum db1.albums t aid).isSome then (db1, some (t, a))
    else
      let (gid, db2) := db1.resolveGenre g
      if ss.any (fun s => (findSong db2.songs aid s).isSome) then (db2, some (t, a))
      else
        let (albId, db3) := db2.insertAlbum t aid r.date (some gid)
        (insertAlbumSongs db3 aid albId gid ss, none)

/-- `music_dbs.load_albums`. -/
def load_albums (db : DB) (recs : List AlbumRecS) : DB × List (String × String) :=
  runLoader loadAlbum1 db recs

/-- Body of the `music_dbs.load_users` loop for one username: strip it, reject
it via the pre-check query when it already exists, otherwise insert it. -/
def loadUser1 (now : String) (db : DB) (u : String) : DB × Option String :=
  let u := pyStrip u
  if (findUser db.users u).isSome then (db, some u)
  else (db.insertUser u now, none)

/-- `music_dbs.load_users` (`NOW()` modelled as the `now` argument). -/
def load_users (db : DB) (users : List String) (now : String) : DB × List String :=
  runLoader (loadUser1 now) db users

/-- Fault-injected `music_dbs.load_users`: a connectivity fault raised at a
record's `INSERT` is not caught anywhere in this variant, so the whole call
aborts with the fault before reaching `commit`. -/
def load_users_fi (db : DB) (users : List (String × Bool)) (now : String) :
    Except Unit (DB × List String) :=
  users.foldlM (fun st uf =>
    let u := pyStrip uf.1
    if (findUser st.1.users u).isSome then Except.ok (st.1, addReject st.2 u)
    else if uf.2 then Except.error ()
    else Except.ok (st.1.insertUser u now, st.2)) (db, [])

/-- Body of the `music_dbs.load_song_ratings` loop for one record: strip the
strings, then range check, user check, song check, and duplicate check scoped
to any date. -/
def loadRating1 (db : DB) (r : RatingRec) : DB × Option (String × String × String) :=
  let u := pyStrip r.user
  let a := pyStrip r.artist
  let s := pyStrip r.song
  let key := (u, a, s)
  if r.rating < 1 || 5 < r.rating then (db, some key)
  else if (findUser db.users u).isSome = false then (db, some key)
  else
    match findSongByArtistName db a s with
    | none => (db, some key)
    | some sid =>
      if db.ratings.any (fun q => q.username == u && q.song_id == sid) then
        (db, some key)
      else (db.insertRating u sid r.date r.rating, none)

/-- `music_dbs.load_song_ratings`. -/
def load_song_ratings (db : DB) (recs : List RatingRec) :
    DB × List (String × String × String) :=
  runLoader loadRating1 db recs

end MusicDbs

/-- A database with empty tables and fresh counters, used by the concrete
scenarios below. -/
def dbEmpty : DB := ⟨[], [], [], [], [], [], [], 1, 1, 1, 1⟩

/-- Database for the rating-scope scenario: artist `a1` with single `song1`,
user `u1`, and an existing rating by `u1` of `song1` dated 2021-11-17. -/
def dbRatings : DB :=
  { dbEmpty with
    artists := [⟨1, "a1", false⟩],
    songs := [⟨1, "song1", 1, none, some "2021-01-01"⟩],
    users := [⟨"u1", "2020-01-01"⟩],
    ratings := [⟨"u1", 1, "2021-11-17", 4⟩],
    nextArtistId := 2, nextSongId := 2 }

/-- A rating by `u1` of `(a1, song1)` on 2021-11-18, a different date than the
rating already stored in `dbRatings`. -/
def recNewDate : RatingRec := ⟨"u1", "a1", "song1", 4, "2021-11-18"⟩

/-- C1: the two variants of `load_song_ratings` disagree on the scope of the
duplicate-rating check.  In `dbRatings` user `u1` has already rated
`(a1, song1)` on 2021-11-17; on a new rating dated 2021-11-18 the
`music_db.py` variant (check scoped to the same date) accepts and inserts the
rating while the `music_dbs.py` variant (check scoped to any date) rejects it
and inserts nothing, so the two embeddings are not equivalent. -/
theorem load_song_ratings_scope_disagreement :
    (⟨"u1", 1, "2021-11-17", 4⟩ : RatingRow) ∈ dbRatings.ratings
    ∧ recNewDate.date ≠ "2021-11-17"
    ∧ MusicDb.load_song_ratings dbRatings [recNewDate] =
        ({ dbRatings with ratings := dbRatings.ratings ++ [⟨"u1", 1, "2021-11-18", 4⟩] }, [])
    ∧ MusicDbs.load_song_ratings dbRatings [recNewDate] =
        (dbRatings, [("u1", "a1", "song1")])
    ∧ MusicDb.load_song_ratings dbRatings [recNewDate] ≠
        MusicDbs.load_song_ratings dbRatings [recNewDate] := by
  refine ⟨by decide, by decide, by decide, by decide, by decide⟩

/-- Database for the album scenarios: artist `A` already has album `X` and
the single `s1`. -/
def dbAlbumX : DB :=
  { dbEmpty with
    artists := [⟨1, "A", false⟩],
    albums := [⟨1, "X", 1, "2020-01-01", none⟩],
    songs := [⟨1, "s1", 1, none, some "2019-01-01"⟩],
    nextArtistId := 2, nextAlbumId := 2, nextSongId := 2 }

/-- C2 counterexample: the album record `("X", "A", ["s1"])` has a listed
song title (`s1`) that already exists for the resolved artist, yet the looser
variant `music_db.load_albums` does not insert the Album row and does add the
album to the rejected set, because the album title `X` is itself a duplicate:
the claim as stated is false for this record. -/
theorem load_albums_counterexample_dup_title :
    (findSong dbAlbumX.songs 1 "s1").isSome = true
    ∧ (dbAlbumX.resolveArtist "A").1 = 1
    ∧ MusicDb.load_albums dbAlbumX [⟨"X", "A", "2021-01-01", ["s1"]⟩] =
        (dbAlbumX, [("X", "A")])
    ∧ ¬ (MusicDb.load_albums dbAlbumX [⟨"X", "A", "2021-01-01", ["s1"]⟩]).2 = [] := by
  refine ⟨by decide, by decide, by decide, by decide⟩

/-- C4 counterexample: in the stricter variant a record whose `(title,
artist)` pair does not exist in the Song table is nevertheless rejected and
not inserted when its genre set is empty, so "otherwise inserts the song" is
false as stated. -/
theorem load_single_songs_counterexample_empty_genres :
    (findSong dbEmpty.songs (dbEmpty.resolveArtist "A1").1 "S1").isSome = false
    ∧ MusicDbs.load_single_songs dbEmpty [⟨"S1", [], "A1", "2008-10-01"⟩] =
        (dbEmpty, [("S1", "A1")]) := by
  refine ⟨by decide, by decide⟩

/-- C7 counterexample: on the username list `["u1", "u1 "]` over the empty
database the two variants of `load_users` return different rejected sets and
different final `User` tables: the looser variant inserts both raw strings
and rejects nothing, while the stricter variant strips `"u1 "` to `"u1"`,
rejects it as a duplicate, and inserts one row. -/
theorem load_users_counterexample_whitespace :
    MusicDb.load_users dbEmpty ["u1", "u1 "] "2024-01-01" =
      ({ dbEmpty with users := [⟨"u1", "2024-01-01"⟩, ⟨"u1 ", "2024-01-01"⟩] }, [])
    ∧ MusicDbs.load_users dbEmpty ["u1", "u1 "] "2024-01-01" =
      ({ dbEmpty with users := [⟨"u1", "2024-01-01"⟩] }, ["u1"])
    ∧ MusicDb.load_users dbEmpty ["u1", "u1 "] "2024-01-01" ≠
        MusicDbs.load_users dbEmpty ["u1", "u1 "] "2024-01-01" := by
  refine ⟨by decide, by decide, by decide⟩

/-- C8 counterexample: the release date is a string field of the record but
is not trimmed by `music_dbs.load_single_songs`: the inserted Song row keeps
the raw `" 2020-01-01 "`, so "whitespace is trimmed from all string fields"
is false as stated (title, artist and genre are trimmed, the date is not). -/
theorem load_single_songs_counterexample_untrimmed_date :
    MusicDbs.load_single_songs dbEmpty [⟨" S1 ", ["Pop"], " A1 ", " 2020-01-01 "⟩] =
      ({ dbEmpty with
          artists := [⟨1, "A1", false⟩],
          genres := [⟨1, "Pop"⟩],
          songs := [⟨1, "S1", 1, none, some " 2020-01-01 "⟩],
          songGenres := [⟨1, 1⟩],
          nextArtistId := 2, nextGenreId := 2, nextSongId := 2 }, [])
    ∧ pyStrip " 2020-01-01 " ≠ " 2020-01-01 " := by
  refine ⟨by decide, by decide⟩

/-- C10 counterexample: in the stricter variant the genre resolve-or-create
has NOT run when an album is rejected for a duplicate album title: rejecting
`("X", "Jazz", "A", ["s1"])` over `dbAlbumX` leaves the Genre table without
any `Jazz` row (here the state is completely unchanged), contradicting the
claim that the genre resolve-or-create has already run before the rejection
decision. -/
theorem load_albums_counterexample_genre_not_created :
    MusicDbs.load_albums dbAlbumX [⟨"X", "Jazz", "A", "2021-01-01", ["s1"]⟩] =
      (dbAlbumX, [("X", "A")])
    ∧ (findGenre dbAlbumX.genres "Jazz").isNone = true
    ∧ (findGenre (MusicDbs.load_albums dbAlbumX
        [⟨"X", "Jazz", "A", "2021-01-01", ["s1"]⟩]).1.genres "Jazz").isNone = true := by
  refine ⟨by decide, by decide, by decide⟩

/-- C9: a connectivity fault raised by the storage layer at the `INSERT` of a
fresh username is swallowed by the bare `except` of `music_db.load_users`:
the username is added to the rejected set although it is not a duplicate, and
processing continues, contradicting both the spec ("connectivity faults
always propagate") and the function's own docstring (rejected usernames are
"duplicates of existing users").  The `music_dbs.py` variant has no such
handler and propagates the fault. -/
theorem load_users_fault_swallowed :
    (findUser dbEmpty.users "u1").isNone = true
    ∧ MusicDb.load_users_fi dbEmpty [("u1", true)] "2024-01-01" = (dbEmpty, ["u1"])
    ∧ MusicDbs.load_users_fi dbEmpty [("u1", true)] "2024-01-01" = Except.error () := by
  refine ⟨by decide, by decide, rfl⟩

theorem topN_sorted (name : α → String) (cnt : α → Nat) (n : Nat) (l : List α) :
    List.Sorted (keyOrd name cnt) (topN name cnt n l) :=
  List.Pairwise.sublist (List.take_sublist n _) (List.sorted_insertionSort _ l)

theorem topN_length (name : α → String) (cnt : α → Nat) (n : Nat) (l : List α) :
    (topN name cnt n l).length = min n l.length := by
  simp [topN, List.length_take, (List.perm_insertionSort (keyOrd name cnt) l).length_eq]

theorem topN_mem (name : α → String) (cnt : α → Nat) (n : Nat) (l : List α)
    (x : α) (h : x ∈ topN name cnt n l) : x ∈ l :=
  (List.perm_insertionSort (keyOrd name cnt) l).mem_iff.mp
    ((List.take_sublist n _).subset h)

theorem topN_all (name : α → String) (cnt : α → Nat) (n : Nat) (l : List α)
    (h : l.length ≤ n) : (topN name cnt n l).Perm l := by
  have hl : (List.insertionSort (keyOrd name cnt) l).length ≤ n := by
    rw [(List.perm_insertionSort (keyOrd name cnt) l).length_eq]
    exact h
  rw [topN, List.take_of_length_le hl]
  exact List.perm_insertionSort _ l

theorem topN_zero (name : α → String) (cnt : α → Nat) (l : List α) :
    topN name cnt 0 l = [] := by
  simp [topN]

/-- What the spec demands of a top-N query: the result is sorted by count
descending with ties broken by ascending name, truncated to the first `n`
of the qualifying groups; all groups are returned when fewer than `n` exist
and the result is empty when `n = 0` or no group qualifies. -/
def TopNSpec (name : α → String) (cnt : α → Nat) (groups : List α) (n : Nat)
    (res : List α) : Prop :=
  List.Sorted (keyOrd name cnt) res
  ∧ res.length = min n groups.length
  ∧ (∀ x ∈ res, x ∈ groups)
  ∧ (groups.length ≤ n → res.Perm groups)
  ∧ (n = 0 → res = [])

theorem topN_meets_spec (name : α → String) (cnt : α → Nat) (n : Nat) (l : List α) :
    TopNSpec name cnt l n (topN name cnt n l) :=
  ⟨topN_sorted name cnt n l, topN_length name cnt n l,
   topN_mem name cnt n l, topN_all name cnt n l,
   fun h => h ▸ topN_zero name cnt l⟩

/-- C5: every top-N query returns the qualifying groups ordered by count
descending with ties broken by ascending alphabetical order of the named
field, truncated to the first `n`; all groups are returned when fewer than
`n` distinct groups exist, and the empty list when none exist or `n = 0`. -/
theorem topN_queries_order_and_truncation (db : DB) (n : Nat) (yr : Nat × Nat) :
    TopNSpec Prod.fst Prod.snd (prolificGroups db yr.1 yr.2) n
      (get_most_prolific_individual_artists db n yr)
    ∧ TopNSpec Prod.fst Prod.snd (genreGroups db) n (get_top_song_genres db n)
    ∧ TopNSpec (fun x => x.1) (fun x => x.2.2) (ratedSongGroups db yr.1 yr.2) n
      (get_most_rated_songs db yr n)
    ∧ TopNSpec Prod.fst Prod.snd (engagedUserGroups db yr.1 yr.2) n
      (get_most_engaged_users db yr n) :=
  ⟨topN_meets_spec _ _ n _, topN_meets_spec _ _ n _,
   topN_meets_spec _ _ n _, topN_meets_spec _ _ n _⟩

/-- Fixture for the top-N witness: two genres with one linked song each. -/
def dbTwoGenres : DB :=
  { dbEmpty with
    genres := [⟨1, "Pop"⟩, ⟨2, "Jazz"⟩],
    songGenres := [⟨1, 1⟩, ⟨2, 2⟩],
    nextGenreId := 3 }

/-- Witness for C5: with two genre groups and `n = 5 > 2`, all groups come
back, and with `n = 0` the result is empty. -/
theorem topN_queries_order_and_truncation_witness :
    ((genreGroups dbTwoGenres).length ≤ 5
      ∧ (get_top_song_genres dbTwoGenres 5).Perm (genreGroups dbTwoGenres))
    ∧ (get_top_song_genres dbTwoGenres 0 = []) :=
  ⟨⟨by decide,
    (topN_queries_order_and_truncation dbTwoGenres 5 (2000, 2025)).2.1.2.2.2.1 (by decide)⟩,
   (topN_queries_order_and_truncation dbTwoGenres 0 (2000, 2025)).2.1.2.2.2.2 rfl⟩

theorem runLoader_singleton [DecidableEq κ] (step : DB → ρ → DB × Option κ)
    (db : DB) (r : ρ) :
    runLoader step db [r] =
      ((step db r).1, match (step db r).2 with | some k => [k] | none => []) := by
  rcases h : step db r with ⟨db1, ok⟩
  cases ok <;> simp [runLoader, h, addReject]

theorem resolveArtist_frame (db : DB) (a : String) :
    ((db.resolveArtist a).2).genres = db.genres
    ∧ ((db.resolveArtist a).2).albums = db.albums
    ∧ ((db.resolveArtist a).2).songs = db.songs
    ∧ ((db.resolveArtist a).2).songGenres = db.songGenres
    ∧ ((db.resolveArtist a).2).users = db.users
    ∧ ((db.resolveArtist a).2).ratings = db.ratings
    ∧ ((db.resolveArtist a).2).nextGenreId = db.nextGenreId
    ∧ ((db.resolveArtist a).2).nextAlbumId = db.nextAlbumId
    ∧ ((db.resolveArtist a).2).nextSongId = db.nextSongId := by
  unfold DB.resolveArtist
  cases findArtist db.artists a <;> simp [DB.insertArtist]

theorem resolveGenre_frame (db : DB) (g : String) :
    ((db.resolveGenre g).2).artists = db.artists
    ∧ ((db.resolveGenre g).2).albums = db.albums
    ∧ ((db.resolveGenre g).2).songs = db.songs
    ∧ ((db.resolveGenre g).2).songGenres = db.songGenres
    ∧ ((db.resolveGenre g).2).users = db.users
    ∧ ((db.resolveGenre g).2).ratings = db.ratings
    ∧ ((db.resolveGenre g).2).nextArtistId = db.nextArtistId
    ∧ ((db.resolveGenre g).2).nextAlbumId = db.nextAlbumId
    ∧ ((db.resolveGenre g).2).nextSongId = db.nextSongId := by
  unfold DB.resolveGenre
  cases findGenre db.genres g <;> simp [DB.insertGenre]

theorem resolveArtist_of_absent (db : DB) (a : String)
    (h : findArtist db.artists a = none) :
    db.resolveArtist a = (db.nextArtistId,
      { db with artists := db.artists ++ [⟨db.nextArtistId, a, false⟩],
                nextArtistId := db.nextArtistId + 1 }) := by
  unfold DB.resolveArtist
  rw [h]
  rfl

theorem resolveArtist_of_found (db : DB) (a : String) (row : ArtistRow)
    (h : findArtist db.artists a = some row) :
    db.resolveArtist a = (row.artist_id, db) := by
  unfold DB.resolveArtist
  rw [h]

theorem resolveGenre_of_absent (db : DB) (g : String)
    (h : findGenre db.genres g = none) :
    db.resolveGenre g = (db.nextGenreId,
      { db with genres := db.genres ++ [⟨db.nextGenreId, g⟩],
                nextGenreId := db.nextGenreId + 1 }) := by
  unfold DB.resolveGenre
  rw [h]
  rfl

theorem resolveGenre_of_found (db : DB) (g : String) (row : GenreRow)
    (h : findGenre db.genres g = some row) :
    db.resolveGenre g = (row.genre_id, db) := by
  unfold DB.resolveGenre
  rw [h]

/-- The four checks of `music_db.load_song_ratings` as one boolean: rating in
`[1,5]`, the user exists, `(artist, song)` resolves to a song, and no prior
rating by this user of that song on the same date. -/
def MusicDb.ratingChecks (db : DB) (r : RatingRec) : Bool :=
  (decide (1 ≤ r.rating) && decide (r.rating ≤ 5))
  && (findUser db.users r.user).isSome
  && (match findSongByArtistName db r.artist r.song with
      | none => false
      | some sid => !(db.ratings.any (fun q =>
          q.username == r.user && q.song_id == sid && q.rating_date == r.date)))

/-- The four checks of `music_dbs.load_song_ratings`: as above but on the
stripped strings, with the duplicate check scoped to any date. -/
def MusicDbs.ratingChecks (db : DB) (r : RatingRec) : Bool :=
  (decide (1 ≤ r.rating) && decide (r.rating ≤ 5))
  && (findUser db.users (pyStrip r.user)).isSome
  && (match findSongByArtistName db (pyStrip r.artist) (pyStrip r.song) with
      | none => false
      | some sid => !(db.ratings.any (fun q =>
          q.username == pyStrip r.user && q.song_id == sid)))

/-- C3: in either variant, `load_song_ratings` inserts a Rating row for a
record exactly when all four checks pass; any failing check (in whatever
combination) leaves the database unchanged and contributes exactly one
rejection entry, the record's `(username, artist, song-title)` key (the
stripped key in the stricter variant). -/
theorem load_song_ratings_insert_iff_checks (db : DB) (r : RatingRec) :
    (MusicDb.ratingChecks db r = true →
      ∃ sid, findSongByArtistName db r.artist r.song = some sid
        ∧ MusicDb.load_song_ratings db [r] =
            ({ db with ratings := db.ratings ++ [⟨r.user, sid, r.date, r.rating⟩] }, []))
    ∧ (MusicDb.ratingChecks db r = false →
      MusicDb.load_song_ratings db [r] = (db, [(r.user, r.artist, r.song)]))
    ∧ (MusicDbs.ratingChecks db r = true →
      ∃ sid, findSongByArtistName db (pyStrip r.artist) (pyStrip r.song) = some sid
        ∧ MusicDbs.load_song_ratings db [r] =
            ({ db with ratings := db.ratings ++ [⟨pyStrip r.user, sid, r.date, r.rating⟩] }, []))
    ∧ (MusicDbs.ratingChecks db r = false →
      MusicDbs.load_song_ratings db [r] =
        (db, [(pyStrip r.user, pyStrip r.artist, pyStrip r.song)])) := by
  refine ⟨?_, ?_, ?_, ?_⟩
  · intro h
    simp only [MusicDb.ratingChecks, Bool.and_eq_true, decide_eq_true_eq] at h
    obtain ⟨⟨⟨hlo, hhi⟩, huser⟩, hsong⟩ := h
    rcases hfind : findSongByArtistName db r.artist r.song with _ | sid
    · rw [hfind] at hsong
      simp at hsong
    · rw [hfind] at hsong
      simp only [Bool.not_eq_true'] at hsong
      refine ⟨sid, rfl, ?_⟩
      simp [MusicDb.load_song_ratings, runLoader_singleton, MusicDb.loadRating1, hfind,
        hsong, huser, DB.insertRating, Int.not_lt.mpr hlo, Int.not_lt.mpr hhi]
  · intro h
    simp only [MusicDb.ratingChecks, Bool.and_eq_false_iff] at h
    simp only [MusicDb.load_song_ratings, runLoader_singleton, MusicDb.loadRating1]
    by_cases hr : (decide (r.rating < 1) || decide (5 < r.rating)) = true
    · simp [hr]
    · simp only [Bool.or_eq_true, decide_eq_true_eq, not_or, Int.not_lt] at hr
      rcases h with (h | h) | h
      · rcases h with h | h <;> simp [decide_eq_true_eq] at h <;> omega
      · simp only [Bool.or_eq_true, decide_eq_true_eq]
        simp [h, Int.not_lt.mpr hr.1, Int.not_lt.mpr hr.2]
      · rcases hfind : findSongByArtistName db r.artist r.song with _ | sid
        · simp [hfind, Int.not_lt.mpr hr.1, Int.not_lt.mpr hr.2]
        · rw [hfind] at h
          simp only [Bool.not_eq_false] at h
          rcases hu : findUser db.users r.user with _ | w
          · simp [hu, hfind, Int.not_lt.mpr hr.1, Int.not_lt.mpr hr.2]
          · simp at h
            simp [hu, hfind, h, Int.not_lt.mpr hr.1, Int.not_lt.mpr hr.2]
  · intro h
    simp only [MusicDbs.ratingChecks, Bool.and_eq_true, decide_eq_true_eq] at h
    obtain ⟨⟨⟨hlo, hhi⟩, huser⟩, hsong⟩ := h
    rcases hfind : findSongByArtistName db (pyStrip r.artist) (pyStrip r.song) with _ | sid
    · rw [hfind] at hsong
      simp at hsong
    · rw [hfind] at hsong
      simp only [Bool.not_eq_true'] at hsong
      refine ⟨sid, rfl, ?_⟩
      simp [MusicDbs.load_song_ratings, runLoader_singleton, MusicDbs.loadRating1, hfind,
        hsong, huser, DB.insertRating, Int.not_lt.mpr hlo, Int.not_lt.mpr hhi]
  · intro h
    simp only [MusicDbs.ratingChecks, Bool.and_eq_false_iff] at h
    simp only [MusicDbs.load_song_ratings, runLoader_singleton, MusicDbs.loadRating1]
    by_cases hr : (decide (r.rating < 1) || decide (5 < r.rating)) = true
    · simp [hr]
    · simp only [Bool.or_eq_true, decide_eq_true_eq, not_or, Int.not_lt] at hr
      rcases h with (h | h) | h
      · rcases h with h | h <;> simp [decide_eq_true_eq] at h <;> omega
      · simp [h, Int.not_lt.mpr hr.1, Int.not_lt.mpr hr.2]
      · rcases hfind : findSongByArtistName db (pyStrip r.artist) (pyStrip r.song) with _ | sid
        · simp [hfind, Int.not_lt.mpr hr.1, Int.not_lt.mpr hr.2]
        · rw [hfind] at h
          simp only [Bool.not_eq_false] at h
          rcases hu : findUser db.users (pyStrip r.user) with _ | w
          · simp [hu, hfind, Int.not_lt.mpr hr.1, Int.not_lt.mpr hr.2]
          · simp at h
            simp [hu, hfind, h, Int.not_lt.mpr hr.1, Int.not_lt.mpr hr.2]

/-- Witness for C3: over `dbRatings` the passing record `recNewDate` is
inserted by the looser variant, and a record with rating `9` fails the range
check and is rejected by both variants with a single rejection entry. -/
theorem load_song_ratings_insert_iff_checks_witness :
    (∃ sid, findSongByArtistName dbRatings "a1" "song1" = some sid
      ∧ MusicDb.load_song_ratings dbRatings [recNewDate] =
          ({ dbRatings with
              ratings := dbRatings.ratings ++ [⟨"u1", sid, "2021-11-18", 4⟩] }, []))
    ∧ MusicDb.load_song_ratings dbRatings [⟨"u1", "a1", "song1", 9, "2021-11-18"⟩] =
        (dbRatings, [("u1", "a1", "song1")])
    ∧ MusicDbs.load_song_ratings dbRatings [⟨"u1", "a1", "song1", 9, "2021-11-18"⟩] =
        (dbRatings, [("u1", "a1", "song1")]) :=
  ⟨(load_song_ratings_insert_iff_checks dbRatings recNewDate).1 (by decide),
   (load_song_ratings_insert_iff_checks dbRatings ⟨"u1", "a1", "song1", 9, "2021-11-18"⟩).2.1
     (by decide),
   (load_song_ratings_insert_iff_checks dbRatings ⟨"u1", "a1", "song1", 9, "2021-11-18"⟩).2.2.2
     (by decide)⟩

theorem foldl_congr_mem {f g : β → α → β} (l : List α)
    (h : ∀ a ∈ l, ∀ b, f b a = g b a) (init : β) : l.foldl f init = l.foldl g init := by
  induction l generalizing init with
  | nil => rfl
  | cons x xs ih =>
    simp only [List.foldl_cons]
    rw [h x (List.mem_cons_self x xs)]
    exact ih (fun a ha b => h a (List.mem_cons_of_mem x ha) b) _

theorem loadUser1_strip_eq (now : String) (db : DB) (u : String) (h : pyStrip u = u) :
    MusicDbs.loadUser1 now db u = MusicDb.loadUser1 now db u := by
  unfold MusicDbs.loadUser1 MusicDb.loadUser1
  rw [h]

/-- C7 (amended): when every username in the batch is already
whitespace-trimmed, the insertion-failure variant `music_db.load_users` and
the pre-check variant `music_dbs.load_users` return the same rejected set and
leave the same final `User` table: duplicates rejected, non-duplicates
inserted. -/
theorem load_users_variants_agree (db : DB) (users : List String) (now : String)
    (h : ∀ u ∈ users, pyStrip u = u) :
    MusicDb.load_users db users now = MusicDbs.load_users db users now := by
  unfold MusicDb.load_users MusicDbs.load_users runLoader
  exact foldl_congr_mem users
    (fun u hu st => by rw [loadUser1_strip_eq now st.1 u (h u hu)]) (db, [])

/-- Witness for C7 (amended): on a trimmed batch with an internal duplicate
the two variants agree exactly. -/
theorem load_users_variants_agree_witness :
    (∀ u ∈ ["u1", "u2", "u1"], pyStrip u = u)
    ∧ MusicDb.load_users dbEmpty ["u1", "u2", "u1"] "2024-01-01" =
        MusicDbs.load_users dbEmpty ["u1", "u2", "u1"] "2024-01-01" :=
  ⟨by decide, load_users_variants_agree dbEmpty ["u1", "u2", "u1"] "2024-01-01" (by decide)⟩

/-- C6: after `clear_database` (either variant) all seven tables are empty,
and loading artist `A1` with single `S1` of genre `Pop` into the cleared
database and asking for the top `n ≥ 1` genres returns exactly
`[("Pop", 1)]`, in either variant. -/
theorem clear_database_roundtrip (db : DB) (n : Nat) (d : String) (h : 1 ≤ n) :
    (MusicDb.clear_database db).ratings = []
    ∧ (MusicDb.clear_database db).songGenres = []
    ∧ (MusicDb.clear_database db).songs = []
    ∧ (MusicDb.clear_database db).albums = []
    ∧ (MusicDb.clear_database db).users = []
    ∧ (MusicDb.clear_database db).genres = []
    ∧ (MusicDb.clear_database db).artists = []
    ∧ MusicDbs.clear_database db = MusicDb.clear_database db
    ∧ get_top_song_genres
        ((MusicDb.load_single_songs (MusicDb.clear_database db) [⟨"S1", ["Pop"], "A1", d⟩]).1)
        n = [("Pop", 1)]
    ∧ get_top_song_genres
        ((MusicDbs.load_single_songs (MusicDbs.clear_database db) [⟨"S1", ["Pop"], "A1", d⟩]).1)
        n = [("Pop", 1)] := by
  obtain ⟨m, rfl⟩ : ∃ m, n = m + 1 := ⟨n - 1, by omega⟩
  refine ⟨rfl, rfl, rfl, rfl, rfl, rfl, rfl, rfl, ?_, ?_⟩
  · simp [MusicDb.clear_database, MusicDb.load_single_songs, runLoader, MusicDb.loadSingle1,
      DB.resolveArtist, findArtist, DB.insertArtist, findSong, DB.insertSong,
      MusicDb.linkGenres, DB.resolveGenre, findGenre, DB.insertGenre, DB.insertSongGenre,
      get_top_song_genres, genreGroups, topN, List.insertionSort, List.orderedInsert]
  · simp [MusicDbs.clear_database, MusicDbs.load_single_songs, runLoader, MusicDbs.loadSingle1,
      DB.resolveArtist, findArtist, DB.insertArtist, findSong, DB.insertSong,
      MusicDbs.linkGenres, DB.resolveGenre, findGenre, DB.insertGenre, DB.insertSongGenre,
      get_top_song_genres, genreGroups, topN, List.insertionSort, List.orderedInsert, pyStrip,
      stripChars, isSpaceChar]

/-- Witness for C6: the concrete instance at `n = 1` over `dbRatings`. -/
theorem clear_database_roundtrip_witness :
    get_top_song_genres
      ((MusicDb.load_single_songs (MusicDb.clear_database dbRatings)
        [⟨"S1", ["Pop"], "A1", "2008-10-01"⟩]).1) 1 = [("Pop", 1)] :=
  (clear_database_roundtrip dbRatings 1 "2008-10-01" (by decide)).2.2.2.2.2.2.2.2.1

theorem linkGenres_strip_map (db : DB) (sid : Nat) (gs : List String) :
    MusicDbs.linkGenres db sid gs = MusicDb.linkGenres db sid (gs.map pyStrip) := by
  unfold MusicDbs.linkGenres MusicDb.linkGenres
  rw [List.foldl_map]

theorem isEmpty_map (f : α → β) (l : List α) : (l.map f).isEmpty = l.isEmpty := by
  cases l <;> rfl

/-- Body of `music_dbs.load_single_songs` factored through its pre-stripped
inputs: the title, artist and genre names it actually compares and stores are
the stripped ones, while the release date is passed through as given. -/
def MusicDbs.loadSingle1Core (db : DB) (t : String) (gs : List String) (a d : String) :
    DB × Option (String × String) :=
  if gs.isEmpty then (db, some (t, a))
  else
    let (aid, db1) := db.resolveArtist a
    if (findSong db1.songs aid t).isSome then (db1, some (t, a))
    else
      let (sid, db2) := db1.insertSong t aid none (some d)
      (MusicDb.linkGenres db2 sid gs, none)

theorem loadSingle1_eq_core (db : DB) (r : SingleRec) :
    MusicDbs.loadSingle1 db r =
      MusicDbs.loadSingle1Core db (pyStrip r.title) (r.genres.map pyStrip)
        (pyStrip r.artist) r.date := by
  unfold MusicDbs.loadSingle1 MusicDbs.loadSingle1Core
  simp only [linkGenres_strip_map, isEmpty_map]

/-- C8 (amended): in the stricter variant every record with an empty genre
set is rejected (with the stripped `(title, artist)` key) and nothing is
inserted for it; whitespace is trimmed from the title, the artist name and
the genre names before any comparison — so duplicate detection and
artist/genre resolve-or-create operate on the trimmed values and two records
equal up to trimming of those fields are processed identically — while the
release date is passed through untrimmed. -/
theorem load_single_songs_strict_trim_and_empty_genres :
    (∀ (db : DB) (r : SingleRec), r.genres = [] →
      MusicDbs.load_single_songs db [r] = (db, [(pyStrip r.title, pyStrip r.artist)]))
    ∧ (∀ (db : DB) (r : SingleRec),
        MusicDbs.loadSingle1 db r =
          MusicDbs.loadSingle1Core db (pyStrip r.title) (r.genres.map pyStrip)
            (pyStrip r.artist) r.date)
    ∧ (∀ (db : DB) (r r2 : SingleRec),
        pyStrip r.title = pyStrip r2.title → pyStrip r.artist = pyStrip r2.artist →
        r.genres.map pyStrip = r2.genres.map pyStrip → r.date = r2.date →
        MusicDbs.load_single_songs db [r] = MusicDbs.load_single_songs db [r2]) := by
  refine ⟨?_, loadSingle1_eq_core, ?_⟩
  · intro db r h
    simp [MusicDbs.load_single_songs, runLoader_singleton, MusicDbs.loadSingle1, h]
  · intro db r r2 h1 h2 h3 h4
    simp only [MusicDbs.load_single_songs, runLoader_singleton]
    rw [loadSingle1_eq_core db r, loadSingle1_eq_core db r2, h1, h2, h3, h4]

/-- Witness for C8 (amended): a record with whitespace around its title,
artist and genre is processed exactly as the trimmed record, and an
empty-genre record is rejected with the trimmed key. -/
theorem load_single_songs_strict_trim_witness :
    ((⟨" S1 ", [], " A1 ", "2020-01-01"⟩ : SingleRec).genres = []
      ∧ MusicDbs.load_single_songs dbEmpty [⟨" S1 ", [], " A1 ", "2020-01-01"⟩] =
          (dbEmpty, [("S1", "A1")]))
    ∧ MusicDbs.load_single_songs dbEmpty [⟨" S1 ", [" Pop "], "A1 ", "2020-01-01"⟩] =
        MusicDbs.load_single_songs dbEmpty [⟨"S1", ["Pop"], "A1", "2020-01-01"⟩] :=
  ⟨⟨rfl, by
      have h := (load_single_songs_strict_trim_and_empty_genres).1 dbEmpty
        ⟨" S1 ", [], " A1 ", "2020-01-01"⟩ rfl
      simpa using h⟩,
   (load_single_songs_strict_trim_and_empty_genres).2.2 dbEmpty
     ⟨" S1 ", [" Pop "], "A1 ", "2020-01-01"⟩ ⟨"S1", ["Pop"], "A1", "2020-01-01"⟩
     (by decide) (by decide) (by decide) rfl⟩

theorem isSome_false_eq_none (o : Option α) (h : o.isSome = false) : o = none := by
  cases o with
  | none => rfl
  | some v => simp at h

theorem linkGenres_frame (db : DB) (sid : Nat) (gs : List String) :
    (MusicDb.linkGenres db sid gs).artists = db.artists
    ∧ (MusicDb.linkGenres db sid gs).songs = db.songs
    ∧ (MusicDb.linkGenres db sid gs).albums = db.albums
    ∧ (MusicDb.linkGenres db sid gs).users = db.users
    ∧ (MusicDb.linkGenres db sid gs).ratings = db.ratings
    ∧ (MusicDb.linkGenres db sid gs).nextArtistId = db.nextArtistId
    ∧ (MusicDb.linkGenres db sid gs).nextSongId = db.nextSongId
    ∧ (MusicDb.linkGenres db sid gs).nextAlbumId = db.nextAlbumId := by
  induction gs generalizing db with
  | nil => exact ⟨rfl, rfl, rfl, rfl, rfl, rfl, rfl, rfl⟩
  | cons g gs ih =>
    rcases hg : db.resolveGenre g with ⟨gid, db1⟩
    have hf := resolveGenre_frame db g
    rw [hg] at hf
    have hstep : MusicDb.linkGenres db sid (g :: gs) =
        MusicDb.linkGenres (db1.insertSongGenre sid gid) sid gs := by
      unfold MusicDb.linkGenres
      simp only [List.foldl_cons, hg]
    rw [hstep]
    have hi := ih (db1.insertSongGenre sid gid)
    simp only [DB.insertSongGenre] at hi
    exact ⟨hi.1.trans hf.1, hi.2.1.trans hf.2.2.1, hi.2.2.1.trans hf.2.1,
      hi.2.2.2.1.trans hf.2.2.2.2.1, hi.2.2.2.2.1.trans hf.2.2.2.2.2.1,
      hi.2.2.2.2.2.1.trans hf.2.2.2.2.2.2.1, hi.2.2.2.2.2.2.1.trans hf.2.2.2.2.2.2.2.2,
      hi.2.2.2.2.2.2.2.trans hf.2.2.2.2.2.2.2.1⟩

/-- Duplicate test performed by both variants of `load_single_songs`: does a
song with this title already exist for the artist the record resolves to. -/
def MusicDb.singleDup (db : DB) (title artist : String) : Bool :=
  (findSong db.songs (db.resolveArtist artist).1 title).isSome

/-- The duplicate check and insertion shared by the bodies of both variants
of `load_single_songs` (after the stricter variant's stripping and
empty-genre guard). -/
def singleBody (db : DB) (t : String) (gs : List String) (a d : String) :
    DB × Option (String × String) :=
  let (aid, db1) := db.resolveArtist a
  if (findSong db1.songs aid t).isSome then (db1, some (t, a))
  else
    let (sid, db2) := db1.insertSong t aid none (some d)
    (MusicDb.linkGenres db2 sid gs, none)

theorem loadSingle1_eq_body (db : DB) (r : SingleRec) :
    MusicDb.loadSingle1 db r = singleBody db r.title r.genres r.artist r.date := rfl

theorem loadSingle1Core_eq_body (db : DB) (t : String) (gs : List String) (a d : String)
    (hg : gs.isEmpty = false) :
    MusicDbs.loadSingle1Core db t gs a d = singleBody db t gs a d := by
  unfold MusicDbs.loadSingle1Core singleBody
  rw [hg]
  simp

theorem singleBody_dup (db : DB) (t : String) (gs : List String) (a d : String)
    (h : MusicDb.singleDup db t a = true) :
    singleBody db t gs a d = ((db.resolveArtist a).2, some (t, a)) := by
  unfold singleBody
  unfold MusicDb.singleDup at h
  rcases ha : db.resolveArtist a with ⟨aid, db1⟩
  have hf := resolveArtist_frame db a
  rw [ha] at hf h
  simp only [ha]
  rw [hf.2.2.1]
  simp [h]

theorem singleBody_fresh (db : DB) (t : String) (gs : List String) (a d : String)
    (h : MusicDb.singleDup db t a = false) :
    (singleBody db t gs a d).2 = none
    ∧ (singleBody db t gs a d).1.songs =
        db.songs ++ [⟨db.nextSongId, t, (db.resolveArtist a).1, none, some d⟩]
    ∧ (singleBody db t gs a d).1.artists = ((db.resolveArtist a).2).artists
    ∧ (singleBody db t gs a d).1.nextSongId = db.nextSongId + 1 := by
  unfold singleBody
  unfold MusicDb.singleDup at h
  rcases ha : db.resolveArtist a with ⟨aid, db1⟩
  have haid : (db.resolveArtist a).1 = aid := by rw [ha]
  have hdb1 : (db.resolveArtist a).2 = db1 := by rw [ha]
  have hf := resolveArtist_frame db a
  rw [hdb1] at hf
  rw [haid] at h
  have hnone : findSong db.songs aid t = none := isSome_false_eq_none _ h
  simp only [ha, hdb1]
  rw [hf.2.2.1, hnone]
  simp only [Option.isSome_none, Bool.false_eq_true, if_false, DB.insertSong]
  have hl := linkGenres_frame
    { db1 with songs := db1.songs ++ [⟨db1.nextSongId, t, aid, none, some d⟩],
               nextSongId := db1.nextSongId + 1 } db1.nextSongId gs
  refine ⟨trivial, ?_, ?_, ?_⟩
  · rw [hl.2.1]
    simp only [hf.2.2.1, hf.2.2.2.2.2.2.2.2]
  · rw [hl.1]
  · rw [hl.2.2.2.2.2.2.1]
    simp [hf.2.2.2.2.2.2.2.2]

theorem resolveArtist_after (db : DB) (a : String) (db2 : DB)
    (h2 : db2.artists = ((db.resolveArtist a).2).artists) :
    (db2.resolveArtist a).1 = (db.resolveArtist a).1 ∧ (db2.resolveArtist a).2 = db2 := by
  rcases hfa : findArtist db.artists a with _ | row
  · have hres := resolveArtist_of_absent db a hfa
    rw [hres] at h2
    have hfind : findArtist db2.artists a = some ⟨db.nextArtistId, a, false⟩ := by
      rw [h2]
      unfold findArtist at hfa ⊢
      rw [List.find?_append, hfa]
      simp
    rw [resolveArtist_of_found db2 a _ hfind, hres]
    exact ⟨rfl, rfl⟩
  · have hres := resolveArtist_of_found db a row hfa
    rw [hres] at h2
    have hfind : findArtist db2.artists a = some row := by rw [h2]; exact hfa
    rw [resolveArtist_of_found db2 a row hfind, hres]
    exact ⟨rfl, rfl⟩

theorem singleBody_twice (db : DB) (t : String) (gs : List String) (a d : String)
    (h : MusicDb.singleDup db t a = false) :
    MusicDb.singleDup (singleBody db t gs a d).1 t a = true
    ∧ singleBody (singleBody db t gs a d).1 t gs a d =
        ((singleBody db t gs a d).1, some (t, a)) := by
  have hb := singleBody_fresh db t gs a d h
  have haft := resolveArtist_after db a (singleBody db t gs a d).1 hb.2.2.1
  have hdup : MusicDb.singleDup (singleBody db t gs a d).1 t a = true := by
    unfold MusicDb.singleDup
    rw [haft.1, hb.2.1]
    unfold MusicDb.singleDup at h
    have hnone := isSome_false_eq_none _ h
    unfold findSong at hnone ⊢
    rw [List.find?_append, hnone]
    simp
  refine ⟨hdup, ?_⟩
  rw [singleBody_dup _ t gs a d hdup, haft.2]

theorem runLoader_single_dup {ρ : Type} (step : DB → ρ → DB × Option (String × String))
    (r : ρ) (t : String) (gs : List String) (a d : String) (db : DB)
    (hstep : step db r = singleBody db t gs a d)
    (h : MusicDb.singleDup db t a = true) :
    runLoader step db [r] = ((db.resolveArtist a).2, [(t, a)]) := by
  rw [runLoader_singleton, hstep, singleBody_dup db t gs a d h]

theorem runLoader_single_twice {ρ : Type} (step : DB → ρ → DB × Option (String × String))
    (r : ρ) (t : String) (gs : List String) (a d : String) (db : DB)
    (hstep : ∀ dbX, step dbX r = singleBody dbX t gs a d)
    (h : MusicDb.singleDup db t a = false) :
    (runLoader step db [r]).2 = []
    ∧ (runLoader step db [r]).1.songs =
        db.songs ++ [⟨db.nextSongId, t, (db.resolveArtist a).1, none, some d⟩]
    ∧ (runLoader step db [r, r]).2 = [(t, a)]
    ∧ (runLoader step db [r, r]).1.songs =
        db.songs ++ [⟨db.nextSongId, t, (db.resolveArtist a).1, none, some d⟩] := by
  have hb := singleBody_fresh db t gs a d h
  have htw := singleBody_twice db t gs a d h
  have hsplit1 : step db r = ((singleBody db t gs a d).1, none) := by
    rw [hstep db, ← hb.1]
  have hsplit2 : step (singleBody db t gs a d).1 r =
      ((singleBody db t gs a d).1, some (t, a)) := by
    rw [hstep _, htw.2]
  refine ⟨?_, ?_, ?_, ?_⟩ <;>
    simp [runLoader, hsplit1, hsplit2, addReject, hb.2.1]

/-- C4 (amended): in either variant a record whose `(title, artist)` pair
already exists in the Song table (for the artist it resolves to) is rejected,
leaving the Song table unchanged, and otherwise — except in the stricter
variant when the genre set is empty, which is also rejected (see C8) — the
song is inserted with a null album reference and a non-null release date; in
particular loading the same single twice rejects the second attempt while
keeping the first, in both variants (the stricter variant comparing and
storing stripped title/artist). -/
theorem load_single_songs_dup_semantics (db : DB) (r : SingleRec) :
    (MusicDb.singleDup db r.title r.artist = true →
      MusicDb.load_single_songs db [r] = ((db.resolveArtist r.artist).2, [(r.title, r.artist)])
      ∧ ((db.resolveArtist r.artist).2).songs = db.songs)
    ∧ (MusicDb.singleDup db r.title r.artist = false →
      (MusicDb.load_single_songs db [r]).2 = []
      ∧ (MusicDb.load_single_songs db [r]).1.songs =
          db.songs ++ [⟨db.nextSongId, r.title, (db.resolveArtist r.artist).1, none, some r.date⟩])
    ∧ (r.genres.isEmpty = false →
        MusicDb.singleDup db (pyStrip r.title) (pyStrip r.artist) = true →
      MusicDbs.load_single_songs db [r] =
        ((db.resolveArtist (pyStrip r.artist)).2, [(pyStrip r.title, pyStrip r.artist)])
      ∧ ((db.resolveArtist (pyStrip r.artist)).2).songs = db.songs)
    ∧ (r.genres.isEmpty = false →
        MusicDb.singleDup db (pyStrip r.title) (pyStrip r.artist) = false →
      (MusicDbs.load_single_songs db [r]).2 = []
      ∧ (MusicDbs.load_single_songs db [r]).1.songs =
          db.songs ++ [⟨db.nextSongId, pyStrip r.title,
            (db.resolveArtist (pyStrip r.artist)).1, none, some r.date⟩])
    ∧ (MusicDb.singleDup db r.title r.artist = false →
      (MusicDb.load_single_songs db [r, r]).2 = [(r.title, r.artist)]
      ∧ (MusicDb.load_single_songs db [r, r]).1.songs =
          db.songs ++ [⟨db.nextSongId, r.title, (db.resolveArtist r.artist).1, none, some r.date⟩])
    ∧ (r.genres.isEmpty = false →
        MusicDb.singleDup db (pyStrip r.title) (pyStrip r.artist) = false →
      (MusicDbs.load_single_songs db [r, r]).2 = [(pyStrip r.title, pyStrip r.artist)]
      ∧ (MusicDbs.load_single_songs db [r, r]).1.songs =
          db.songs ++ [⟨db.nextSongId, pyStrip r.title,
            (db.resolveArtist (pyStrip r.artist)).1, none, some r.date⟩]) := by
  have hL : ∀ dbX, MusicDb.loadSingle1 dbX r =
      singleBody dbX r.title r.genres r.artist r.date := fun dbX => loadSingle1_eq_body dbX r
  refine ⟨?_, ?_, ?_, ?_, ?_, ?_⟩
  · intro h
    exact ⟨runLoader_single_dup MusicDb.loadSingle1 r r.title r.genres r.artist r.date db
        (hL db) h,
      (resolveArtist_frame db r.artist).2.2.1⟩
  · intro h
    have hb := runLoader_single_twice MusicDb.loadSingle1 r r.title r.genres r.artist r.date
      db hL h
    exact ⟨hb.1, hb.2.1⟩
  · intro hg h
    have hS : ∀ dbX, MusicDbs.loadSingle1 dbX r =
        singleBody dbX (pyStrip r.title) (r.genres.map pyStrip) (pyStrip r.artist) r.date :=
      fun dbX => (loadSingle1_eq_core dbX r).trans
        (loadSingle1Core_eq_body dbX _ _ _ _ (by rw [isEmpty_map]; exact hg))
    exact ⟨runLoader_single_dup MusicDbs.loadSingle1 r (pyStrip r.title)
        (r.genres.map pyStrip) (pyStrip r.artist) r.date db (hS db) h,
      (resolveArtist_frame db (pyStrip r.artist)).2.2.1⟩
  · intro hg h
    have hS : ∀ dbX, MusicDbs.loadSingle1 dbX r =
        singleBody dbX (pyStrip r.title) (r.genres.map pyStrip) (pyStrip r.artist) r.date :=
      fun dbX => (loadSingle1_eq_core dbX r).trans
        (loadSingle1Core_eq_body dbX _ _ _ _ (by rw [isEmpty_map]; exact hg))
    have hb := runLoader_single_twice MusicDbs.loadSingle1 r (pyStrip r.title)
      (r.genres.map pyStrip) (pyStrip r.artist) r.date db hS h
    exact ⟨hb.1, hb.2.1⟩
  · intro h
    have hb := runLoader_single_twice MusicDb.loadSingle1 r r.title r.genres r.artist r.date
      db hL h
    exact ⟨hb.2.2.1, hb.2.2.2⟩
  · intro hg h
    have hS : ∀ dbX, MusicDbs.loadSingle1 dbX r =
        singleBody dbX (pyStrip r.title) (r.genres.map pyStrip) (pyStrip r.artist) r.date :=
      fun dbX => (loadSingle1_eq_core dbX r).trans
        (loadSingle1Core_eq_body dbX _ _ _ _ (by rw [isEmpty_map]; exact hg))
    have hb := runLoader_single_twice MusicDbs.loadSingle1 r (pyStrip r.title)
      (r.genres.map pyStrip) (pyStrip r.artist) r.date db hS h
    exact ⟨hb.2.2.1, hb.2.2.2⟩

/-- Witness for C4 (amended): loading the single `("S1", "A1")` twice over
the empty database keeps the first copy and rejects the second. -/
theorem load_single_songs_dup_semantics_witness :
    MusicDb.singleDup dbEmpty "S1" "A1" = false
    ∧ ((MusicDb.load_single_songs dbEmpty
          [⟨"S1", ["Pop"], "A1", "2008-10-01"⟩, ⟨"S1", ["Pop"], "A1", "2008-10-01"⟩]).2 =
        [("S1", "A1")]
      ∧ (MusicDb.load_single_songs dbEmpty
          [⟨"S1", ["Pop"], "A1", "2008-10-01"⟩, ⟨"S1", ["Pop"], "A1", "2008-10-01"⟩]).1.songs =
        dbEmpty.songs ++ [⟨dbEmpty.nextSongId, "S1",
          (dbEmpty.resolveArtist "A1").1, none, some "2008-10-01"⟩]) :=
  ⟨by decide,
   (load_single_songs_dup_semantics dbEmpty ⟨"S1", ["Pop"], "A1", "2008-10-01"⟩).2.2.2.2.1
     (by decide)⟩

theorem findSong_append_none (l1 l2 : List SongRow) (aid : Nat) (t : String)
    (h : findSong (l1 ++ l2) aid t = none) : findSong l1 aid t = none := by
  unfold findSong at h ⊢
  rw [List.find?_append] at h
  rcases hx : List.find? (fun s => s.artist_id == aid && s.title == t) l1 with _ | s
  · exact hx
  · rw [hx] at h
    simp at h

theorem findSong_some_mem (l : List SongRow) (aid : Nat) (t : String) (s : SongRow)
    (h : findSong l aid t = some s) : s ∈ l ∧ s.artist_id = aid ∧ s.title = t := by
  unfold findSong at h
  have hm := List.mem_of_find?_eq_some h
  have hp := List.find?_some h
  simp only [Bool.and_eq_true, beq_iff_eq] at hp
  exact ⟨hm, hp.1, hp.2⟩

/-- Duplicate-album test performed by both variants of `load_albums`: does
the artist the record resolves to already have an album with this title. -/
def MusicDb.albumDup (db : DB) (title artist : String) : Bool :=
  (findAlbum db.albums title (db.resolveArtist artist).1).isSome

/-- Song-collision pre-check of `music_dbs.load_albums`: does some stripped
listed title already exist for the artist the record resolves to. -/
def MusicDbs.albumCollides (db : DB) (r : AlbumRecS) : Bool :=
  (dedupFirst (r.songs.map pyStrip)).any
    (fun s => (findSong db.songs (db.resolveArtist (pyStrip r.artist)).1 s).isSome)

theorem loadAlbum1L_dup (db : DB) (rl : AlbumRecL)
    (h : MusicDb.albumDup db rl.title rl.artist = true) :
    MusicDb.loadAlbum1 db rl = ((db.resolveArtist rl.artist).2, some (rl.title, rl.artist)) := by
  unfold MusicDb.loadAlbum1
  unfold MusicDb.albumDup at h
  rcases ha : db.resolveArtist rl.artist with ⟨aid, db1⟩
  have haid : (db.resolveArtist rl.artist).1 = aid := by rw [ha]
  have hdb1 : (db.resolveArtist rl.artist).2 = db1 := by rw [ha]
  have hf := resolveArtist_frame db rl.artist
  rw [hdb1] at hf
  rw [haid] at h
  simp only [ha, hdb1]
  rw [hf.2.1]
  simp [h]

theorem loadAlbum1L_fresh (db : DB) (rl : AlbumRecL)
    (h : MusicDb.albumDup db rl.title rl.artist = false) :
    MusicDb.loadAlbum1 db rl =
      (MusicDb.insertAlbumSongs
        (((db.resolveArtist rl.artist).2.insertAlbum rl.title
          (db.resolveArtist rl.artist).1 rl.date none).2)
        (db.resolveArtist rl.artist).1
        (((db.resolveArtist rl.artist).2.insertAlbum rl.title
          (db.resolveArtist rl.artist).1 rl.date none).1)
        rl.songs, none) := by
  unfold MusicDb.loadAlbum1
  unfold MusicDb.albumDup at h
  rcases ha : db.resolveArtist rl.artist with ⟨aid, db1⟩
  have haid : (db.resolveArtist rl.artist).1 = aid := by rw [ha]
  have hdb1 : (db.resolveArtist rl.artist).2 = db1 := by rw [ha]
  have hf := resolveArtist_frame db rl.artist
  rw [hdb1] at hf
  rw [haid] at h
  have hnone : findAlbum db.albums rl.title aid = none := isSome_false_eq_none _ h
  simp only [ha, hdb1, haid]
  rw [hf.2.1, hnone]
  simp

theorem loadAlbum1S_dupTitle (db : DB) (rs : AlbumRecS)
    (hne : rs.songs.isEmpty = false)
    (h : MusicDb.albumDup db (pyStrip rs.title) (pyStrip rs.artist) = true) :
    MusicDbs.loadAlbum1 db rs =
      ((db.resolveArtist (pyStrip rs.artist)).2,
       some (pyStrip rs.title, pyStrip rs.artist)) := by
  unfold MusicDbs.loadAlbum1
  unfold MusicDb.albumDup at h
  rcases ha : db.resolveArtist (pyStrip rs.artist) with ⟨aid, db1⟩
  have haid : (db.resolveArtist (pyStrip rs.artist)).1 = aid := by rw [ha]
  have hdb1 : (db.resolveArtist (pyStrip rs.artist)).2 = db1 := by rw [ha]
  have hf := resolveArtist_frame db (pyStrip rs.artist)
  rw [hdb1] at hf
  rw [haid] at h
  simp only [ha, hdb1, hne]
  rw [hf.2.1]
  simp [h]

theorem loadAlbum1S_collision (db : DB) (rs : AlbumRecS)
    (hne : rs.songs.isEmpty = false)
    (hdup : MusicDb.albumDup db (pyStrip rs.title) (pyStrip rs.artist) = false)
    (hcol : MusicDbs.albumCollides db rs = true) :
    MusicDbs.loadAlbum1 db rs =
      (((db.resolveArtist (pyStrip rs.artist)).2.resolveGenre (pyStrip rs.genre)).2,
       some (pyStrip rs.title, pyStrip rs.artist)) := by
  unfold MusicDbs.loadAlbum1
  unfold MusicDb.albumDup at hdup
  unfold MusicDbs.albumCollides at hcol
  rcases ha : db.resolveArtist (pyStrip rs.artist) with ⟨aid, db1⟩
  have haid : (db.resolveArtist (pyStrip rs.artist)).1 = aid := by rw [ha]
  have hdb1 : (db.resolveArtist (pyStrip rs.artist)).2 = db1 := by rw [ha]
  have hf := resolveArtist_frame db (pyStrip rs.artist)
  rw [hdb1] at hf
  rw [haid] at hdup hcol
  have hdnone : findAlbum db.albums (pyStrip rs.title) aid = none := isSome_false_eq_none _ hdup
  rcases hg : db1.resolveGenre (pyStrip rs.genre) with ⟨gid, db2⟩
  have hdb2 : (db1.resolveGenre (pyStrip rs.genre)).2 = db2 := by rw [hg]
  have hgf := resolveGenre_frame db1 (pyStrip rs.genre)
  rw [hdb2] at hgf
  simp only [ha, hdb1, hne, hg, hdb2]
  rw [hf.2.1, hdnone]
  have hsongs2 : db2.songs = db.songs := hgf.2.2.1.trans hf.2.2.1
  simp only [Option.isSome_none, Bool.false_eq_true, if_false]
  rw [hsongs2]
  simp [hcol]

theorem insertAlbumSongsL_spec (aid albId : Nat) (songs : List String) : ∀ db : DB,
    (∃ rest, (MusicDb.insertAlbumSongs db aid albId songs).songs = db.songs ++ rest
      ∧ ∀ s ∈ rest, s.artist_id = aid ∧ s.album_id = some albId
          ∧ s.single_release_date = none ∧ s.title ∈ songs
          ∧ findSong db.songs aid s.title = none)
    ∧ (∀ t ∈ songs, ∃ s ∈ (MusicDb.insertAlbumSongs db aid albId songs).songs,
        s.artist_id = aid ∧ s.title = t)
    ∧ (MusicDb.insertAlbumSongs db aid albId songs).albums = db.albums
    ∧ (MusicDb.insertAlbumSongs db aid albId songs).artists = db.artists
    ∧ (MusicDb.insertAlbumSongs db aid albId songs).genres = db.genres
    ∧ (MusicDb.insertAlbumSongs db aid albId songs).songGenres = db.songGenres := by
  induction songs with
  | nil =>
    intro db
    refine ⟨⟨[], by simp [MusicDb.insertAlbumSongs], ?_⟩, ?_, rfl, rfl, rfl, rfl⟩
    · intro s hs
      exact absurd hs (List.not_mem_nil s)
    · intro t ht
      exact absurd ht (List.not_mem_nil t)
  | cons t ts ih =>
    intro db
    rcases hfind : findSong db.songs aid t with _ | s0
    · -- fresh title: inserted, then continue on the extended state
      have hstep : MusicDb.insertAlbumSongs db aid albId (t :: ts) =
          MusicDb.insertAlbumSongs (db.insertSong t aid (some albId) none).2 aid albId ts := by
        unfold MusicDb.insertAlbumSongs
        simp only [List.foldl_cons, hfind, Option.isSome_none, Bool.false_eq_true, if_false]
      have hdb1songs : ((db.insertSong t aid (some albId) none).2).songs =
          db.songs ++ [⟨db.nextSongId, t, aid, some albId, none⟩] := rfl
      obtain ⟨⟨rest, hr1, hr2⟩, hcov, hal, har, hge, hsg⟩ :=
        ih (db.insertSong t aid (some albId) none).2
      rw [hstep]
      refine ⟨⟨⟨db.nextSongId, t, aid, some albId, none⟩ :: rest, ?_, ?_⟩, ?_, hal, har, hge, hsg⟩
      · rw [hr1, hdb1songs, List.append_assoc]
        rfl
      · intro s hs
        rcases List.mem_cons.mp hs with hs | hs
        · subst hs
          exact ⟨rfl, rfl, rfl, List.mem_cons_self t ts, hfind⟩
        · obtain ⟨p1, p2, p3, p4, p5⟩ := hr2 s hs
          rw [hdb1songs] at p5
          exact ⟨p1, p2, p3, List.mem_cons_of_mem t p4, findSong_append_none _ _ _ _ p5⟩
      · intro u hu
        rcases List.mem_cons.mp hu with hu | hu
        · subst hu
          refine ⟨⟨db.nextSongId, u, aid, some albId, none⟩, ?_, rfl, rfl⟩
          rw [hr1, hdb1songs]
          exact List.mem_append_left _ (List.mem_append_right _ (List.mem_singleton.mpr rfl))
        · exact hcov u hu
    · -- colliding title: skipped
      have hstep : MusicDb.insertAlbumSongs db aid albId (t :: ts) =
          MusicDb.insertAlbumSongs db aid albId ts := by
        unfold MusicDb.insertAlbumSongs
        simp only [List.foldl_cons, hfind, Option.isSome_some, if_true]
      obtain ⟨⟨rest, hr1, hr2⟩, hcov, hal, har, hge, hsg⟩ := ih db
      rw [hstep]
      obtain ⟨hm, hsa, hst⟩ := findSong_some_mem db.songs aid t s0 hfind
      refine ⟨⟨rest, hr1, ?_⟩, ?_, hal, har, hge, hsg⟩
      · intro s hs
        obtain ⟨p1, p2, p3, p4, p5⟩ := hr2 s hs
        exact ⟨p1, p2, p3, List.mem_cons_of_mem t p4, p5⟩
      · intro u hu
        rcases List.mem_cons.mp hu with hu | hu
        · subst hu
          refine ⟨s0, ?_, hsa, hst⟩
          rw [hr1]
          exact List.mem_append_left _ hm
        · exact hcov u hu

/-- C10 (amended): rejecting an album record for a duplicate album title (in
either variant) or for a song-title collision (stricter variant) is not free
of side effects: the artist resolve-or-create has already run, so a
previously absent Artist row is inserted and persists; in the stricter
variant the genre resolve-or-create has additionally run before a
song-collision rejection (and a previously absent Genre row then persists),
but NOT before a duplicate-title rejection; the Album, Song and Song_genre
tables remain unchanged in all these rejection cases. -/
theorem load_albums_reject_side_effects (db : DB) (rl : AlbumRecL) (rs : AlbumRecS) :
    (MusicDb.albumDup db rl.title rl.artist = true →
      MusicDb.load_albums db [rl] = ((db.resolveArtist rl.artist).2, [(rl.title, rl.artist)])
      ∧ ((db.resolveArtist rl.artist).2).albums = db.albums
      ∧ ((db.resolveArtist rl.artist).2).songs = db.songs
      ∧ ((db.resolveArtist rl.artist).2).songGenres = db.songGenres
      ∧ ((db.resolveArtist rl.artist).2).genres = db.genres
      ∧ (findArtist db.artists rl.artist = none →
          ((db.resolveArtist rl.artist).2).artists =
            db.artists ++ [⟨db.nextArtistId, rl.artist, false⟩]))
    ∧ (rs.songs.isEmpty = false →
        MusicDb.albumDup db (pyStrip rs.title) (pyStrip rs.artist) = true →
      MusicDbs.load_albums db [rs] =
        ((db.resolveArtist (pyStrip rs.artist)).2, [(pyStrip rs.title, pyStrip rs.artist)])
      ∧ ((db.resolveArtist (pyStrip rs.artist)).2).genres = db.genres
      ∧ ((db.resolveArtist (pyStrip rs.artist)).2).albums = db.albums
      ∧ ((db.resolveArtist (pyStrip rs.artist)).2).songs = db.songs
      ∧ ((db.resolveArtist (pyStrip rs.artist)).2).songGenres = db.songGenres
      ∧ (findArtist db.artists (pyStrip rs.artist) = none →
          ((db.resolveArtist (pyStrip rs.artist)).2).artists =
            db.artists ++ [⟨db.nextArtistId, pyStrip rs.artist, false⟩]))
    ∧ (rs.songs.isEmpty = false →
        MusicDb.albumDup db (pyStrip rs.title) (pyStrip rs.artist) = false →
        MusicDbs.albumCollides db rs = true →
      (MusicDbs.load_albums db [rs]).2 = [(pyStrip rs.title, pyStrip rs.artist)]
      ∧ (MusicDbs.load_albums db [rs]).1.albums = db.albums
      ∧ (MusicDbs.load_albums db [rs]).1.songs = db.songs
      ∧ (MusicDbs.load_albums db [rs]).1.songGenres = db.songGenres
      ∧ (findArtist db.artists (pyStrip rs.artist) = none →
          (MusicDbs.load_albums db [rs]).1.artists =
            db.artists ++ [⟨db.nextArtistId, pyStrip rs.artist, false⟩])
      ∧ (findGenre db.genres (pyStrip rs.genre) = none →
          (MusicDbs.load_albums db [rs]).1.genres =
            db.genres ++ [⟨db.nextGenreId, pyStrip rs.genre⟩])) := by
  refine ⟨?_, ?_, ?_⟩
  · intro h
    have hf := resolveArtist_frame db rl.artist
    refine ⟨?_, hf.2.1, hf.2.2.1, hf.2.2.2.1, hf.1, ?_⟩
    · unfold MusicDb.load_albums
      rw [runLoader_singleton, loadAlbum1L_dup db rl h]
    · intro hab
      rw [resolveArtist_of_absent db rl.artist hab]
  · intro hne h
    have hf := resolveArtist_frame db (pyStrip rs.artist)
    refine ⟨?_, hf.1, hf.2.1, hf.2.2.1, hf.2.2.2.1, ?_⟩
    · unfold MusicDbs.load_albums
      rw [runLoader_singleton, loadAlbum1S_dupTitle db rs hne h]
    · intro hab
      rw [resolveArtist_of_absent db (pyStrip rs.artist) hab]
  · intro hne hdup hcol
    have hload : MusicDbs.load_albums db [rs] =
        (((db.resolveArtist (pyStrip rs.artist)).2.resolveGenre (pyStrip rs.genre)).2,
         [(pyStrip rs.title, pyStrip rs.artist)]) := by
      unfold MusicDbs.load_albums
      rw [runLoader_singleton, loadAlbum1S_collision db rs hne hdup hcol]
    have hf := resolveArtist_frame db (pyStrip rs.artist)
    have hg := resolveGenre_frame (db.resolveArtist (pyStrip rs.artist)).2 (pyStrip rs.genre)
    rw [hload]
    refine ⟨rfl, hg.2.1.trans hf.2.1, hg.2.2.1.trans hf.2.2.1,
      hg.2.2.2.1.trans hf.2.2.2.1, ?_, ?_⟩
    · intro hab
      rw [hg.1, resolveArtist_of_absent db (pyStrip rs.artist) hab]
    · intro hgb
      have hgb1 : findGenre ((db.resolveArtist (pyStrip rs.artist)).2).genres
          (pyStrip rs.genre) = none := by rw [hf.1]; exact hgb
      rw [resolveGenre_of_absent _ _ hgb1]
      show ((db.resolveArtist (pyStrip rs.artist)).2).genres ++
          [⟨((db.resolveArtist (pyStrip rs.artist)).2).nextGenreId, pyStrip rs.genre⟩] =
        db.genres ++ [⟨db.nextGenreId, pyStrip rs.genre⟩]
      rw [hf.1, hf.2.2.2.2.2.2.1]

/-- Witness for C10 (amended): over `dbAlbumX` (artist `A` with album `X` and
single `s1`, no genres) the strict variant rejects album `Y` for the `s1`
collision, yet the previously absent genre `Jazz` has been inserted and
persists, while Album, Song and Song_genre are unchanged. -/
theorem load_albums_reject_side_effects_witness :
    (MusicDbs.load_albums dbAlbumX [⟨"Y", "Jazz", "A", "2021-01-01", ["s1"]⟩]).2 = [("Y", "A")]
    ∧ (MusicDbs.load_albums dbAlbumX [⟨"Y", "Jazz", "A", "2021-01-01", ["s1"]⟩]).1.albums =
        dbAlbumX.albums
    ∧ (MusicDbs.load_albums dbAlbumX [⟨"Y", "Jazz", "A", "2021-01-01", ["s1"]⟩]).1.songs =
        dbAlbumX.songs
    ∧ (MusicDbs.load_albums dbAlbumX [⟨"Y", "Jazz", "A", "2021-01-01", ["s1"]⟩]).1.genres =
        dbAlbumX.genres ++ [⟨dbAlbumX.nextGenreId, "Jazz"⟩] := by
  have h := (load_albums_reject_side_effects dbAlbumX ⟨"X", "A", "2021-01-01", []⟩
    ⟨"Y", "Jazz", "A", "2021-01-01", ["s1"]⟩).2.2 (by decide) (by decide) (by decide)
  exact ⟨h.1, h.2.1, h.2.2.1, h.2.2.2.2.2 (by decide)⟩

/-- C2 (amended): for an album record in which at least one listed song title
already exists for the resolved artist AND whose album title is not itself a
duplicate for that artist: the stricter variant rejects the whole album —
adding the stripped `(album title, artist)` to the rejected set and inserting
no Album, Song or Song_genre rows — while the looser variant inserts the
Album row and every non-colliding listed song under it, silently skips the
colliding titles (no new Song row for a title that already exists for the
artist), and rejects nothing. -/
theorem load_albums_collision_policy (db : DB) (rl : AlbumRecL) (rs : AlbumRecS) :
    (rs.songs.isEmpty = false →
      MusicDb.albumDup db (pyStrip rs.title) (pyStrip rs.artist) = false →
      MusicDbs.albumCollides db rs = true →
      (MusicDbs.load_albums db [rs]).2 = [(pyStrip rs.title, pyStrip rs.artist)]
      ∧ (MusicDbs.load_albums db [rs]).1.albums = db.albums
      ∧ (MusicDbs.load_albums db [rs]).1.songs = db.songs
      ∧ (MusicDbs.load_albums db [rs]).1.songGenres = db.songGenres)
    ∧ ((rl.songs.any
          (fun t => (findSong db.songs (db.resolveArtist rl.artist).1 t).isSome)) = true →
      MusicDb.albumDup db rl.title rl.artist = false →
      (MusicDb.load_albums db [rl]).2 = []
      ∧ (MusicDb.load_albums db [rl]).1.albums =
          db.albums ++
            [⟨db.nextAlbumId, rl.title, (db.resolveArtist rl.artist).1, rl.date, none⟩]
      ∧ (∃ rest, (MusicDb.load_albums db [rl]).1.songs = db.songs ++ rest
          ∧ ∀ s ∈ rest, s.artist_id = (db.resolveArtist rl.artist).1
              ∧ s.album_id = some db.nextAlbumId
              ∧ s.single_release_date = none ∧ s.title ∈ rl.songs
              ∧ findSong db.songs (db.resolveArtist rl.artist).1 s.title = none)
      ∧ (∀ t ∈ rl.songs, ∃ s ∈ (MusicDb.load_albums db [rl]).1.songs,
          s.artist_id = (db.resolveArtist rl.artist).1 ∧ s.title = t)) := by
  refine ⟨?_, ?_⟩
  · intro hne hdup hcol
    have hload : MusicDbs.load_albums db [rs] =
        (((db.resolveArtist (pyStrip rs.artist)).2.resolveGenre (pyStrip rs.genre)).2,
         [(pyStrip rs.title, pyStrip rs.artist)]) := by
      unfold MusicDbs.load_albums
      rw [runLoader_singleton, loadAlbum1S_collision db rs hne hdup hcol]
    have hf := resolveArtist_frame db (pyStrip rs.artist)
    have hg := resolveGenre_frame (db.resolveArtist (pyStrip rs.artist)).2 (pyStrip rs.genre)
    rw [hload]
    exact ⟨rfl, hg.2.1.trans hf.2.1, hg.2.2.1.trans hf.2.2.1, hg.2.2.2.1.trans hf.2.2.2.1⟩
  · intro hcol hdup
    have hl := loadAlbum1L_fresh db rl hdup
    have hload : MusicDb.load_albums db [rl] =
        (MusicDb.insertAlbumSongs
          (((db.resolveArtist rl.artist).2.insertAlbum rl.title
            (db.resolveArtist rl.artist).1 rl.date none).2)
          (db.resolveArtist rl.artist).1
          (((db.resolveArtist rl.artist).2.insertAlbum rl.title
            (db.resolveArtist rl.artist).1 rl.date none).1)
          rl.songs, []) := by
      unfold MusicDb.load_albums
      rw [runLoader_singleton, hl]
    have hf := resolveArtist_frame db rl.artist
    have hsongs2 : (((db.resolveArtist rl.artist).2.insertAlbum rl.title
        (db.resolveArtist rl.artist).1 rl.date none).2).songs = db.songs := hf.2.2.1
    have halbums2 : (((db.resolveArtist rl.artist).2.insertAlbum rl.title
        (db.resolveArtist rl.artist).1 rl.date none).2).albums =
        db.albums ++
          [⟨db.nextAlbumId, rl.title, (db.resolveArtist rl.artist).1, rl.date, none⟩] := by
      show ((db.resolveArtist rl.artist).2).albums ++
          [⟨((db.resolveArtist rl.artist).2).nextAlbumId, rl.title,
            (db.resolveArtist rl.artist).1, rl.date, none⟩] = _
      rw [hf.2.1, hf.2.2.2.2.2.2.2.1]
    have halbId : (((db.resolveArtist rl.artist).2.insertAlbum rl.title
        (db.resolveArtist rl.artist).1 rl.date none).1) = db.nextAlbumId :=
      hf.2.2.2.2.2.2.2.1
    obtain ⟨⟨rest, hr1, hr2⟩, hcov, hal, _, _, _⟩ :=
      insertAlbumSongsL_spec (db.resolveArtist rl.artist).1
        (((db.resolveArtist rl.artist).2.insertAlbum rl.title
          (db.resolveArtist rl.artist).1 rl.date none).1)
        rl.songs
        (((db.resolveArtist rl.artist).2.insertAlbum rl.title
          (db.resolveArtist rl.artist).1 rl.date none).2)
    refine ⟨?_, ?_, ?_, ?_⟩
    · rw [hload]
    · rw [hload]
      exact hal.trans halbums2
    · refine ⟨rest, ?_, ?_⟩
      · rw [hload]
        rw [hr1, hsongs2]
      · intro s hs
        obtain ⟨p1, p2, p3, p4, p5⟩ := hr2 s hs
        rw [hsongs2] at p5
        rw [halbId] at p2
        exact ⟨p1, p2, p3, p4, p5⟩
    · intro t ht
      obtain ⟨s, hsm, hsa, hst⟩ := hcov t ht
      refine ⟨s, ?_, hsa, hst⟩
      rw [hload]
      exact hsm

/-- Witness for C2 (amended): over `dbAlbumX` the stricter variant rejects
album `Y` (song `s1` collides) inserting nothing, while the looser variant
accepts `Y`, inserting the album row and `s2` and skipping `s1`. -/
theorem load_albums_collision_policy_witness :
    (MusicDbs.load_albums dbAlbumX [⟨"Y", "Jazz", "A", "2021-01-01", ["s1", "s2"]⟩]).2 =
      [("Y", "A")]
    ∧ (MusicDbs.load_albums dbAlbumX [⟨"Y", "Jazz", "A", "2021-01-01", ["s1", "s2"]⟩]).1.songs =
      dbAlbumX.songs
    ∧ (MusicDb.load_albums dbAlbumX [⟨"Y", "A", "2021-01-01", ["s1", "s2"]⟩]).2 = []
    ∧ (MusicDb.load_albums dbAlbumX [⟨"Y", "A", "2021-01-01", ["s1", "s2"]⟩]).1.albums =
      dbAlbumX.albums ++ [⟨dbAlbumX.nextAlbumId, "Y", (dbAlbumX.resolveArtist "A").1,
        "2021-01-01", none⟩] := by
  have h := load_albums_collision_policy dbAlbumX
    ⟨"Y", "A", "2021-01-01", ["s1", "s2"]⟩ ⟨"Y", "Jazz", "A", "2021-01-01", ["s1", "s2"]⟩
  have hs := h.1 (by decide) (by decide) (by decide)
  have hl := h.2 (by decide) (by decide)
  exact ⟨hs.1, hs.2.2.1, hl.1, hl.2.1⟩
